import Mathlib

/-!
Shallow embedding of pybalt's instance-selection and request-resolution
protocol (src/pybalt/cobalt.py): the selector `Cobalt.get_instance` and the
resolver `Cobalt.get`, with the network modelled as scripted environments
(a probe oracle for instance liveness checks and a list of API responses,
one per POST attempt).  Session-level mutable state (`api_instance`,
`headers`, `skipped_instances`) is passed explicitly.
-/

namespace Pybalt

/-- One entry of the public instance registry
(`https://instances.cobalt.best/api/instances.json`), with the fields
`Cobalt.get_instance` reads: `api`, `protocol`, `version` (a dotted string),
`trust` (a number), `services` (service name to health flag), `score`. -/
structure Instance where
  api : String
  protocol : String
  version : String
  trust : Int
  services : List (String × Bool)
  score : Int
deriving DecidableEq

/-- Client session state: the fields of the `Cobalt` object that the
resolution protocol reads and writes (`self.api_instance`, `self.api_key`,
`self.headers`, `self.skipped_instances`).  `api_instance` is `none` when the
Python attribute is `None`. -/
structure Session where
  api_instance : Option String
  api_key : String
  headers : List (String × String)
  skipped_instances : List String
deriving DecidableEq

/-- Python dict lookup on a key-value list (first matching key wins; keys are
unique in the dicts the code builds). -/
def dictGet : List (String × String) → String → Option String
  | [], _ => none
  | (k0, v0) :: rest, k => if k0 = k then some v0 else dictGet rest k

/-- Python dict assignment `d[k] = v`: overwrite the entry in place if the key
is present, append it otherwise. -/
def dictSet : List (String × String) → String → String → List (String × String)
  | [], k, v => [(k, v)]
  | (k0, v0) :: rest, k, v =>
    if k0 = k then (k, v) :: rest else (k0, v0) :: dictSet rest k v

/-- Remove every occurrence of the character `c` from `s`: the effect of
Python's `s.replace(c, "")` for a one-character pattern. -/
def removeAllChar (c : Char) (s : String) : String :=
  String.mk (s.toList.filter (fun x => x ≠ c))

/-- Splitting a character list at every dot, Python's `s.split(".")`:
always at least one piece, empty pieces kept. -/
def splitDotsAux : List Char → List Char → List (List Char)
  | [], acc => [acc.reverse]
  | c :: cs, acc =>
    if c = Char.ofNat 46 then acc.reverse :: splitDotsAux cs []
    else splitDotsAux cs (c :: acc)

/-- Python's `s.split(".")` on a string. -/
def splitDots (s : String) : List String :=
  (splitDotsAux s.toList []).map String.mk

/-- Python's `s.strip()`: drop leading and trailing whitespace. -/
def strTrim (s : String) : String :=
  String.mk (((s.toList.dropWhile Char.isWhitespace).reverse.dropWhile
    Char.isWhitespace).reverse)

/-- Python's `s.lower()` (ASCII case). -/
def strToLower (s : String) : String :=
  String.mk (s.toList.map Char.toLower)

/-- Remove every (non-overlapping, left-to-right) occurrence of the
non-empty pattern `pat`: Python's `s.replace(pat, "")`.  The fuel argument
of the worker is the length of the remaining input, which bounds the number
of steps. -/
def removeSubstrAux (pat : List Char) : Nat → List Char → List Char
  | _, [] => []
  | 0, rest => rest
  | fuel + 1, c :: cs =>
    if pat.isPrefixOf (c :: cs) then removeSubstrAux pat fuel ((c :: cs).drop pat.length)
    else c :: removeSubstrAux pat fuel cs

/-- Python's `s.replace(pat, "")` on a string. -/
def removeSubstr (pat : String) (s : String) : String :=
  String.mk (removeSubstrAux pat.toList s.toList.length s.toList)

/-- Parse a run of decimal digits, Python's `int()` on a digit string. -/
def parseNatChars (cs : List Char) : Option Nat :=
  if cs ≠ [] ∧ cs.all Char.isDigit then
    some (cs.foldl (fun a c => a * 10 + (c.toNat - 48)) 0)
  else none

/-- Python's `int(s)` restricted to optionally-signed decimal strings
(`none` where the Python call raises `ValueError`). -/
def parseInt (s : String) : Option Int :=
  match s.toList with
  | [] => none
  | c :: cs =>
    if c = Char.ofNat 45 then (parseNatChars cs).map (fun n => -(n : Int))
    else (parseNatChars (c :: cs)).map (fun n => (n : Int))

/-- `url.replace("'", "").replace('"', "").replace("\\", "")` from
`Cobalt.get` (cobalt.py line 264 and line 341): drop every single quote
(code point 39), double quote (34) and backslash (92). -/
def sanitizeUrl (url : String) : String :=
  removeAllChar (Char.ofNat 92)
    (removeAllChar (Char.ofNat 34) (removeAllChar (Char.ofNat 39) url))

/-- The canonical quality tokens accepted unchanged (cobalt.py lines
237-248). -/
def canonicalQualities : List String :=
  ["max", "3840", "2160", "1440", "1080", "720", "480", "360", "240", "144"]

/-- The alias dictionary of `Cobalt.get` (cobalt.py lines 250-260). -/
def qualityAliases : List (String × String) :=
  [("8k", "3840"), ("4k", "2160"), ("2k", "1440"), ("1080p", "1080"),
   ("720p", "720"), ("480p", "480"), ("360p", "360"), ("240p", "240"),
   ("144p", "144")]

/-- Quality normalization in `Cobalt.get` (cobalt.py lines 237-262): a
canonical token passes through, an alias is looked up in the dictionary, and
a `KeyError` on the lookup falls back to `"1080"`. -/
def normalizeQuality (q : String) : String :=
  if canonicalQualities.contains q then q
  else
    match dictGet qualityAliases q with
    | some v => v
    | none => "1080"

/-- `int(instance["version"].split(".")[0])` (cobalt.py line 167), for the
semver-like version strings the registry serves (on a non-numeric major the
Python call would raise; the model returns 0 there). -/
def versionMajor (v : String) : Int :=
  (parseInt ((splitDots v).headD "")).getD 0

/-- The dead-service count of cobalt.py lines 165-173: the number of entries
of `instance["services"]` whose status is falsy. -/
def deadServices (i : Instance) : Nat :=
  (i.services.filter (fun p => !p.2)).length

/-- The filter of cobalt.py lines 164-176: an instance is kept unless its
version major is below 10, or its trust differs from 1, or more than 7 of
its services are down. -/
def isGoodInstance (i : Instance) : Bool :=
  if versionMajor i.version < 10 ∨ i.trust ≠ 1 then false
  else if deadServices i > 7 then false
  else true

/-- `good_instances` as built by the loop at cobalt.py lines 163-176. -/
def goodInstancesOf (instances : List Instance) : List Instance :=
  instances.filter isGoodInstance

/-- Insert an instance into a descending-by-score list, in front of the first
element whose score does not exceed its own. -/
def insertByScore (i : Instance) : List Instance → List Instance
  | [] => [i]
  | j :: rest =>
    if j.score ≤ i.score then i :: j :: rest else j :: insertByScore i rest

/-- `good_instances.sort(key=lambda instance: instance["score"], reverse=True)`
(cobalt.py lines 179-181): stable sort by score, descending (ties keep the
registry order, as Python's stable sort does). -/
def sortByScore (l : List Instance) : List Instance :=
  l.foldr insertByScore []

/-- Outcome of the liveness probe `GET protocol://api` on one candidate
(cobalt.py lines 183-188): either the request or JSON parse fails, or it
yields the instance's advertised canonical URL `json["cobalt"]["url"]`. -/
inductive ProbeResult where
  | fail
  | ok (canonicalUrl : String)
deriving DecidableEq

/-- Result of the selection loop of `Cobalt.get_instance`: either a canonical
URL was committed as the active instance, or the candidate list was exhausted
and `good_instances.pop(0)` on the empty list raised an uncaught, untyped
`IndexError` (cobalt.py line 194). -/
inductive SelectResult where
  | committed (url : String)
  | indexError
deriving DecidableEq

/-- The `while True` loop of cobalt.py lines 177-194, run on the sorted
candidate list.  Each iteration probes the head candidate; a probe failure,
or a canonical URL already in `skipped_instances` (which raises
`BadInstance` into the same handler), pops the head and continues.  The
re-sort at the top of each iteration is the identity on the already-sorted
remainder (Python's sort is stable), so it is performed once by the caller.
On the empty list, `good_instances[0]` raises into the handler and
`good_instances.pop(0)` then raises `IndexError` out of the loop. -/
def selectLoop (probe : Instance → ProbeResult) (skipped : List String) :
    List Instance → SelectResult
  | [] => .indexError
  | i :: rest =>
    match probe i with
    | .fail => selectLoop probe skipped rest
    | .ok u =>
      if skipped.contains u then selectLoop probe skipped rest
      else .committed u

/-- The User-Agent string that `Cobalt.get_instance` writes into the shared
headers dict (cobalt.py lines 154-157). -/
def pybaltUserAgent : String :=
  "https://github.com/nichind/pybalt - Cobalt CLI & Python module. (aiohttp Client)"

/-- `Cobalt.get_instance` as a state transformer (cobalt.py lines 145-195):
overwrite the shared headers' User-Agent (the local `headers` aliases
`self.headers`), filter and sort the registry list, and run the selection
loop; on success the committed canonical URL becomes `self.api_instance`,
on exhaustion the `IndexError` propagates with the header mutation already
applied. -/
def get_instance_run (probe : Instance → ProbeResult)
    (registry : List Instance) (s : Session) : Session × SelectResult :=
  let s1 : Session := { s with headers := dictSet s.headers "User-Agent" pybaltUserAgent }
  match selectLoop probe s1.skipped_instances (sortByScore (goodInstancesOf registry)) with
  | .committed u => ({ s1 with api_instance := some u }, .committed u)
  | .indexError => (s1, .indexError)

/-- The sentinel test of cobalt.py lines 231-233:
`self.api_instance.strip().replace("https://", "").replace("http://", "").lower()`
is one of `"f"`, `"fetch"`, `"get"`. -/
def isSentinel (a : String) : Bool :=
  ["f", "fetch", "get"].contains
    (strToLower (removeSubstr "http://" (removeSubstr "https://" (strTrim a))))

/-- Result of the establish-instance step at the top of `Cobalt.get`
(cobalt.py lines 231-235): the session after a selection that was skipped or
succeeded, or the session at the point where `get_instance` raised. -/
inductive EnsureResult where
  | ok (s : Session)
  | failed (s : Session)
deriving DecidableEq

/-- Step 1 of `Cobalt.get`: if `self.api_instance` is falsy or a sentinel,
call `get_instance` (cobalt.py lines 231-235). -/
def ensureInstance (probe : Instance → ProbeResult)
    (registry : List Instance) (s : Session) : EnsureResult :=
  let needsel : Bool :=
    match s.api_instance with
    | none => true
    | some a => a = "" || isSentinel a
  if needsel then
    match get_instance_run probe registry s with
    | (s1, .committed _) => .ok s1
    | (s1, .indexError) => .failed s1
  else .ok s

/-- The JSON body that `Cobalt.get` POSTs (cobalt.py lines 263-272). -/
structure RequestBody where
  url : String
  videoQuality : String
  youtubeVideoCodec : String
  filenameStyle : String
  audioFormat : Option String
deriving DecidableEq

/-- The body built at cobalt.py lines 263-272, from the sanitized URL, the
already-normalized quality, the codec defaulted to `"h264"`, the filename
style, and the optional audio format. -/
def buildBody (url quality filename_style : String)
    (audio_format youtube_video_codec : Option String) : RequestBody :=
  { url := sanitizeUrl url
    videoQuality := quality
    youtubeVideoCodec := youtube_video_codec.getD "h264"
    filenameStyle := filename_style
    audioFormat := audio_format }

/-- The JSON body of one completed POST response: either a success payload
`{status, url, filename}` or an error payload `{error: {code}}`. -/
inductive ApiResponse where
  | success (status filename tunnel : String)
  | error (code : String)
deriving DecidableEq

/-- The `File` object returned by a successful `Cobalt.get`
(cobalt.py lines 338-344), restricted to its data fields. -/
structure File where
  status : String
  url : String
  tunnel : String
  filename : String
deriving DecidableEq

/-- How `Cobalt.get` ends: a `File`, one of the typed exceptions of
`pybalt.exceptions`, an untyped `IndexError` (either from
`json["error"]["code"].split(".")[2]` on a short code, or propagated out of
`get_instance` on candidate exhaustion), or `noResponse` (a model artifact:
the response script ran out). -/
inductive GetOutcome where
  | ok (f : File)
  | linkError (code : String)
  | contentError (code : String)
  | invalidBody (code : String)
  | authError (code : String)
  | unrecognizedError (code : String)
  | getIndexError (code : String)
  | instanceIndexError
  | noResponse
deriving DecidableEq

/-- Whether an outcome is one of the typed errors of the documented taxonomy
(`LinkError`, `ContentError`, `InvalidBody`, `AuthError`,
`UnrecognizedError`). -/
def isTypedError : GetOutcome → Bool
  | .linkError _ => true
  | .contentError _ => true
  | .invalidBody _ => true
  | .authError _ => true
  | .unrecognizedError _ => true
  | _ => false

/-- What the error dispatch of cobalt.py lines 276-337 decides for a given
error code: the `match` on `code.split(".")[2]` (an out-of-range index raises
an untyped `IndexError`), with the `auth` case refined by
`code.split(".")[-1]`; `retry` covers the three branches that append the
current instance to `skipped_instances`, reselect, and resubmit
(`auth.*.missing` / `auth.*.not_found`, `youtube`, `fetch`); a code matching
no case falls through to `UnrecognizedError`. -/
inductive ErrorAction where
  | raiseLink
  | raiseContent
  | raiseInvalidBody
  | raiseAuth
  | raiseUnrecognized
  | retry
  | indexError
deriving DecidableEq

/-- The dispatch itself (cobalt.py lines 276-337). -/
def classifyError (code : String) : ErrorAction :=
  match (splitDots code).get? 2 with
  | none => .indexError
  | some seg =>
    if seg = "link" then .raiseLink
    else if seg = "content" then .raiseContent
    else if seg = "invalid_body" then .raiseInvalidBody
    else if seg = "auth" then
      if (splitDots code).getLastD "" = "missing"
          ∨ (splitDots code).getLastD "" = "not_found" then .retry
      else .raiseAuth
    else if seg = "youtube" then .retry
    else if seg = "fetch" then .retry
    else .raiseUnrecognized

/-- `Cobalt.get` (cobalt.py lines 197-344) as a state transformer over a
scripted environment: `registry`/`probe` stand for the network seen by
`get_instance`, and the response script supplies the JSON body of each POST
in order.  The result carries the final session, the outcome, and the trace
of submitted request bodies.  Each recursive resubmission (the
`return await self.get(url, quality, ...)` calls) consumes the next
response; the recursion passes the original `url` and the normalized
`quality`, exactly as the source does. -/
def getRun (registry : List Instance) (probe : Instance → ProbeResult)
    (url download_mode filename_style : String)
    (audio_format youtube_video_codec : Option String) :
    String → Session → List ApiResponse → Session × GetOutcome × List RequestBody
  | _quality, s, [] =>
    match ensureInstance probe registry s with
    | .failed s1 => (s1, .instanceIndexError, [])
    | .ok s1 => (s1, .noResponse, [])
  | quality, s, resp :: rest =>
    match ensureInstance probe registry s with
    | .failed s1 => (s1, .instanceIndexError, [])
    | .ok s1 =>
      let q := normalizeQuality quality
      let body := buildBody url q filename_style audio_format youtube_video_codec
      match resp with
      | .success st fn tn =>
        (s1, .ok { status := st, url := sanitizeUrl url, tunnel := tn, filename := fn }, [body])
      | .error code =>
        match classifyError code with
        | .raiseLink => (s1, .linkError code, [body])
        | .raiseContent => (s1, .contentError code, [body])
        | .raiseInvalidBody => (s1, .invalidBody code, [body])
        | .raiseAuth => (s1, .authError code, [body])
        | .raiseUnrecognized => (s1, .unrecognizedError code, [body])
        | .indexError => (s1, .getIndexError code, [body])
        | .retry =>
          let s2 : Session :=
            { s1 with skipped_instances := s1.skipped_instances ++ [s1.api_instance.getD ""] }
          match get_instance_run probe registry s2 with
          | (s3, .indexError) => (s3, .instanceIndexError, [body])
          | (s3, .committed _) =>
            let r := getRun registry probe url download_mode filename_style
              audio_format youtube_video_codec q s3 rest
            (r.1, r.2.1, body :: r.2.2)

/-! ### Helper lemmas -/

theorem dictGet_dictSet_same (k v : String) :
    ∀ hs, dictGet (dictSet hs k v) k = some v := by
  intro hs
  induction hs with
  | nil => simp [dictSet, dictGet]
  | cons p rest ih =>
    obtain ⟨k0, v0⟩ := p
    by_cases h : k0 = k
    · simp [dictSet, dictGet, h]
    · simp [dictSet, dictGet, h, ih]

theorem dictGet_dictSet_other (k v k' : String) (hne : k' ≠ k) :
    ∀ hs, dictGet (dictSet hs k v) k' = dictGet hs k' := by
  have hks : ¬(k = k') := fun hh => hne hh.symm
  intro hs
  induction hs with
  | nil => simp [dictSet, dictGet, hks]
  | cons p rest ih =>
    obtain ⟨k0, v0⟩ := p
    by_cases h : k0 = k
    · subst h
      simp [dictSet, dictGet, hks]
    · simp [dictSet, dictGet, h, ih]

theorem get_instance_run_skipped (probe : Instance → ProbeResult)
    (registry : List Instance) (s : Session) :
    (get_instance_run probe registry s).1.skipped_instances = s.skipped_instances := by
  simp only [get_instance_run]
  split <;> rfl

theorem get_instance_run_api_key (probe : Instance → ProbeResult)
    (registry : List Instance) (s : Session) :
    (get_instance_run probe registry s).1.api_key = s.api_key := by
  simp only [get_instance_run]
  split <;> rfl

theorem get_instance_run_headers (probe : Instance → ProbeResult)
    (registry : List Instance) (s : Session) :
    (get_instance_run probe registry s).1.headers
      = dictSet s.headers "User-Agent" pybaltUserAgent := by
  simp only [get_instance_run]
  split <;> rfl

theorem ensureInstance_ok_skipped (probe : Instance → ProbeResult)
    (registry : List Instance) (s s1 : Session)
    (h : ensureInstance probe registry s = .ok s1) :
    s1.skipped_instances = s.skipped_instances := by
  simp only [ensureInstance] at h
  split at h
  · split at h
    · cases h
      rename_i heq
      have := congrArg (fun p => p.1.skipped_instances) heq
      simpa [get_instance_run_skipped] using this.symm
    · cases h
  · cases h
    rfl

theorem ensureInstance_failed_skipped (probe : Instance → ProbeResult)
    (registry : List Instance) (s s1 : Session)
    (h : ensureInstance probe registry s = .failed s1) :
    s1.skipped_instances = s.skipped_instances := by
  simp only [ensureInstance] at h
  split at h
  · split at h
    · cases h
    · cases h
      rename_i heq
      have := congrArg (fun p => p.1.skipped_instances) heq
      simpa [get_instance_run_skipped] using this.symm
  · cases h

theorem ensureInstance_established (probe : Instance → ProbeResult)
    (registry : List Instance) (s : Session) (a : String)
    (h1 : s.api_instance = some a) (ha : a ≠ "") (hb : isSentinel a = false) :
    ensureInstance probe registry s = .ok s := by
  simp [ensureInstance, h1, ha, hb]

theorem selectLoop_committed_not_skipped (probe : Instance → ProbeResult)
    (skipped : List String) :
    ∀ (cands : List Instance) (u : String),
      selectLoop probe skipped cands = .committed u → skipped.contains u = false := by
  intro cands
  induction cands with
  | nil => intro u h; simp [selectLoop] at h
  | cons i rest ih =>
    intro u h
    cases hp : probe i with
    | fail =>
      simp only [selectLoop, hp] at h
      exact ih u h
    | ok v =>
      simp only [selectLoop, hp] at h
      by_cases hc : skipped.contains v = true
      · rw [if_pos hc] at h
        exact ih u h
      · rw [if_neg hc] at h
        cases h
        exact Bool.not_eq_true _ |>.mp hc

theorem selectLoop_exhausted (probe : Instance → ProbeResult) (skipped : List String) :
    ∀ cands : List Instance,
      (∀ i ∈ cands, probe i = .fail ∨
        ∃ u, probe i = .ok u ∧ skipped.contains u = true) →
      selectLoop probe skipped cands = .indexError := by
  intro cands
  induction cands with
  | nil => intro _; rfl
  | cons i rest ih =>
    intro h
    have hrest := fun j hj => h j (List.mem_cons_of_mem i hj)
    rcases h i (List.mem_cons_self i rest) with hp | ⟨u, hp, hu⟩
    · simp only [selectLoop, hp]
      exact ih hrest
    · simp only [selectLoop, hp, if_pos hu]
      exact ih hrest

theorem isGoodInstance_iff (i : Instance) :
    isGoodInstance i = true ↔
      10 ≤ versionMajor i.version ∧ i.trust = 1 ∧ deadServices i ≤ 7 := by
  unfold isGoodInstance
  split_ifs with h1 h2
  · simp only [Bool.false_eq_true, false_iff]
    rintro ⟨hv, ht, hd⟩
    rcases h1 with h1 | h1
    · omega
    · exact h1 ht
  · simp only [Bool.false_eq_true, false_iff]
    rintro ⟨hv, ht, hd⟩
    omega
  · push_neg at h1
    simp only [true_iff]
    exact ⟨by omega, h1.2, by omega⟩

/-- Composing the three character filters of `sanitizeUrl`. -/
theorem filter_filter_filter (p q r : Char → Bool) :
    ∀ l : List Char,
      ((l.filter p).filter q).filter r
        = l.filter (fun c => p c && (q c && r c)) := by
  intro l
  rw [List.filter_filter, List.filter_filter]
  apply List.filter_congr
  intro a _
  cases p a <;> cases q a <;> cases r a <;> rfl

/-- `sanitizeUrl` removes exactly the quote, double-quote and backslash
characters and keeps everything else in order. -/
theorem sanitizeUrl_eq_filter (url : String) :
    sanitizeUrl url = String.mk (url.toList.filter
      (fun c => c ≠ Char.ofNat 39 && (c ≠ Char.ofNat 34 && c ≠ Char.ofNat 92))) := by
  unfold sanitizeUrl removeAllChar
  congr 1
  exact filter_filter_filter _ _ _ url.toList

theorem classifyError_of_seg (code : String) (seg : String)
    (h : (splitDots code).get? 2 = some seg) :
    classifyError code =
      (if seg = "link" then .raiseLink
       else if seg = "content" then .raiseContent
       else if seg = "invalid_body" then .raiseInvalidBody
       else if seg = "auth" then
         if (splitDots code).getLastD "" = "missing"
             ∨ (splitDots code).getLastD "" = "not_found" then .retry
         else .raiseAuth
       else if seg = "youtube" then .retry
       else if seg = "fetch" then .retry
       else .raiseUnrecognized) := by
  unfold classifyError
  rw [h]

theorem classifyError_short (code : String)
    (h : (splitDots code).length < 3) :
    classifyError code = .indexError := by
  unfold classifyError
  rw [List.get?_eq_none.mpr (by omega)]

theorem aliasValues_canonical (q v : String)
    (h : dictGet qualityAliases q = some v) :
    canonicalQualities.contains v = true := by
  simp only [qualityAliases, dictGet] at h
  split_ifs at h <;> simp_all <;> subst h <;> decide

/-! ### Concrete data for scenarios and witnesses -/

/-- A healthy registry entry advertising canonical URL
`https://a.example`. -/
def exInstanceA : Instance :=
  { api := "a.example/api", protocol := "https", version := "10.4.2",
    trust := 1, services := [("youtube", true), ("tiktok", false)], score := 90 }

/-- A healthy registry entry advertising canonical URL
`https://b.example`. -/
def exInstanceB : Instance :=
  { api := "b.example/api", protocol := "https", version := "11.0",
    trust := 1, services := [("youtube", true)], score := 80 }

/-- A probe oracle under which every candidate reports canonical URL
`https://a.example`. -/
def exProbeA : Instance → ProbeResult := fun _ => .ok "https://a.example"

/-- A probe oracle under which every candidate reports canonical URL
`https://b.example`. -/
def exProbeB : Instance → ProbeResult := fun _ => .ok "https://b.example"

/-- A session whose active instance is `https://a.example` and whose skip
set is empty. -/
def exSession : Session :=
  { api_instance := some "https://a.example", api_key := "key",
    headers := [("Accept", "application/json"), ("User-Agent", "pybalt/python")],
    skipped_instances := [] }

/-- `exSession` after instance `https://a.example` was skipped and
`https://b.example` was committed by `get_instance`. -/
def exSessionB : Session :=
  { api_instance := some "https://b.example", api_key := "key",
    headers := [("Accept", "application/json"), ("User-Agent", pybaltUserAgent)],
    skipped_instances := ["https://a.example"] }

/-! ### Claim theorems -/

/-- Claim C5: an instance descriptor appears in the filtered candidate list
produced by `get_instance` if and only if its version major is at least 10,
its trust equals 1, and at most 7 of its services report unhealthy. -/
theorem goodInstances_membership_iff (instances : List Instance) (i : Instance) :
    i ∈ goodInstancesOf instances ↔
      i ∈ instances ∧ 10 ≤ versionMajor i.version ∧ i.trust = 1 ∧
        deadServices i ≤ 7 := by
  unfold goodInstancesOf
  rw [List.mem_filter, isGoodInstance_iff]

/-- Witness for C5 at a concrete registry: the healthy instance is kept. -/
theorem goodInstances_membership_iff_witness :
    exInstanceA ∈ goodInstancesOf [exInstanceA] :=
  (goodInstances_membership_iff [exInstanceA] exInstanceA).mpr
    ⟨by decide, by decide, by decide, by decide⟩

/-- Claim C6: quality normalization in `get`: canonical tokens pass through
unchanged, each alias maps to its numeric token (in particular `"4k"` to
`"2160"`), any other value falls back to `"1080"`, and the result is always
a canonical token (the normalization is total and never fails the call). -/
theorem quality_normalization_spec :
    (∀ q, canonicalQualities.contains q = true → normalizeQuality q = q) ∧
    (normalizeQuality "8k" = "3840" ∧ normalizeQuality "4k" = "2160" ∧
     normalizeQuality "2k" = "1440" ∧ normalizeQuality "1080p" = "1080" ∧
     normalizeQuality "720p" = "720" ∧ normalizeQuality "480p" = "480" ∧
     normalizeQuality "360p" = "360" ∧ normalizeQuality "240p" = "240" ∧
     normalizeQuality "144p" = "144") ∧
    (∀ q, canonicalQualities.contains q = false →
      dictGet qualityAliases q = none → normalizeQuality q = "1080") ∧
    (∀ q, canonicalQualities.contains (normalizeQuality q) = true) := by
  refine ⟨?_, by decide, ?_, ?_⟩
  · intro q h
    unfold normalizeQuality
    rw [if_pos h]
  · intro q h1 h2
    unfold normalizeQuality
    have hcq : ¬(canonicalQualities.contains q = true) := by
      rw [h1]; exact Bool.false_ne_true
    rw [if_neg hcq, h2]
  · intro q
    unfold normalizeQuality
    by_cases hc : canonicalQualities.contains q = true
    · rw [if_pos hc]; exact hc
    · rw [if_neg hc]
      rcases hd : dictGet qualityAliases q with _ | v
      · decide
      · exact aliasValues_canonical q v hd

/-- Witness for C6: the parts with hypotheses applied at concrete tokens. -/
theorem quality_normalization_spec_witness :
    normalizeQuality "720" = "720" ∧ normalizeQuality "something" = "1080" :=
  ⟨quality_normalization_spec.1 "720" (by decide),
   quality_normalization_spec.2.2.1 "something" (by decide) (by decide)⟩

/-- Claim C8: a response whose error code has third dot-segment `link` makes
`get` raise `LinkError` on the first attempt: the final session equals the
initial one (no instance rotation, `skipped_instances` unchanged) and
exactly one request body was submitted. -/
theorem link_error_first_attempt (registry : List Instance)
    (probe : Instance → ProbeResult)
    (url download_mode filename_style : String)
    (audio_format youtube_video_codec : Option String)
    (quality : String) (s : Session) (a code : String) (rest : List ApiResponse)
    (h1 : s.api_instance = some a) (ha : a ≠ "") (hb : isSentinel a = false)
    (hseg : (splitDots code).get? 2 = some "link") :
    getRun registry probe url download_mode filename_style audio_format
        youtube_video_codec quality s (.error code :: rest)
      = (s, .linkError code,
         [buildBody url (normalizeQuality quality) filename_style
            audio_format youtube_video_codec]) := by
  have hens := ensureInstance_established probe registry s a h1 ha hb
  have hcls : classifyError code = .raiseLink := by
    rw [classifyError_of_seg code _ hseg]; rfl
  simp only [getRun, hens, hcls]

/-- Witness for C8: a concrete `error.api.link.invalid` response raises
`LinkError` with no retry. -/
theorem link_error_first_attempt_witness :
    getRun [exInstanceB] exProbeB "https://youtu.be/x" "auto" "pretty" none none
        "1080" exSession [.error "error.api.link.invalid"]
      = (exSession, .linkError "error.api.link.invalid",
         [buildBody "https://youtu.be/x" (normalizeQuality "1080") "pretty" none none]) :=
  link_error_first_attempt [exInstanceB] exProbeB "https://youtu.be/x" "auto"
    "pretty" none none "1080" exSession "https://a.example"
    "error.api.link.invalid" [] (by rfl) (by decide) (by rfl) (by rfl)

/-- Claim C10: a response whose error code has fewer than three dot-separated
segments makes `get` fail with an untyped `IndexError` while dispatching on
the third segment, not with any typed error of the taxonomy. -/
theorem short_code_index_error (registry : List Instance)
    (probe : Instance → ProbeResult)
    (url download_mode filename_style : String)
    (audio_format youtube_video_codec : Option String)
    (quality : String) (s : Session) (a code : String) (rest : List ApiResponse)
    (h1 : s.api_instance = some a) (ha : a ≠ "") (hb : isSentinel a = false)
    (hshort : (splitDots code).length < 3) :
    classifyError code = .indexError ∧
    getRun registry probe url download_mode filename_style audio_format
        youtube_video_codec quality s (.error code :: rest)
      = (s, .getIndexError code,
         [buildBody url (normalizeQuality quality) filename_style
            audio_format youtube_video_codec]) ∧
    isTypedError (.getIndexError code) = false := by
  have hcls := classifyError_short code hshort
  have hens := ensureInstance_established probe registry s a h1 ha hb
  refine ⟨hcls, ?_, rfl⟩
  simp only [getRun, hens, hcls]

/-- Witness for C10: the two-segment code `error.api` hits the untyped
`IndexError` path. -/
theorem short_code_index_error_witness :
    classifyError "error.api" = .indexError ∧
    getRun [exInstanceB] exProbeB "https://youtu.be/x" "auto" "pretty" none none
        "1080" exSession [.error "error.api"]
      = (exSession, .getIndexError "error.api",
         [buildBody "https://youtu.be/x" (normalizeQuality "1080") "pretty" none none]) ∧
    isTypedError (.getIndexError "error.api") = false :=
  short_code_index_error [exInstanceB] exProbeB "https://youtu.be/x" "auto"
    "pretty" none none "1080" exSession "https://a.example" "error.api" []
    (by rfl) (by decide) (by rfl) (by decide)

/-- Shared step lemma: when the active instance is established and the error
code classifies as retryable, `get` appends the active instance to
`skipped_instances`, reselects via `get_instance`, and resubmits with the
same `url` and the normalized `quality` (and unchanged `download_mode`,
`filename_style`, `audio_format`, `youtube_video_codec`); the outcome is the
outcome of the resubmission. -/
theorem getRun_retry_step (registry : List Instance)
    (probe : Instance → ProbeResult)
    (url download_mode filename_style : String)
    (audio_format youtube_video_codec : Option String)
    (quality : String) (s : Session) (a code : String) (rest : List ApiResponse)
    (s3 : Session) (u : String)
    (h1 : s.api_instance = some a) (ha : a ≠ "") (hb : isSentinel a = false)
    (hcls : classifyError code = .retry)
    (hsel : get_instance_run probe registry
        { s with skipped_instances := s.skipped_instances ++ [a] }
      = (s3, .committed u)) :
    getRun registry probe url download_mode filename_style audio_format
        youtube_video_codec quality s (.error code :: rest)
      = ((getRun registry probe url download_mode filename_style audio_format
            youtube_video_codec (normalizeQuality quality) s3 rest).1,
         (getRun registry probe url download_mode filename_style audio_format
            youtube_video_codec (normalizeQuality quality) s3 rest).2.1,
         buildBody url (normalizeQuality quality) filename_style audio_format
            youtube_video_codec
           :: (getRun registry probe url download_mode filename_style audio_format
            youtube_video_codec (normalizeQuality quality) s3 rest).2.2)
      ∧ s3.skipped_instances = s.skipped_instances ++ [a] := by
  have hens := ensureInstance_established probe registry s a h1 ha hb
  have hskip : s3.skipped_instances = s.skipped_instances ++ [a] := by
    have := get_instance_run_skipped probe registry
      { s with skipped_instances := s.skipped_instances ++ [a] }
    rw [hsel] at this
    exact this
  refine ⟨?_, hskip⟩
  rw [h1] at hsel
  simp only [getRun, hens, hcls, h1, Option.getD_some, hsel]

/-- Claim C3: a response whose error code has third dot-segment `youtube` or
`fetch` makes `get` append the active instance to `skipped_instances`,
reselect via `get_instance`, and resubmit with identical parameters; the
outcome is the resubmission's outcome, so no error is raised for that
response when another viable instance exists (here: the reselection
committed an instance). -/
theorem youtube_fetch_retry (registry : List Instance)
    (probe : Instance → ProbeResult)
    (url download_mode filename_style : String)
    (audio_format youtube_video_codec : Option String)
    (quality : String) (s : Session) (a code : String) (rest : List ApiResponse)
    (s3 : Session) (u : String)
    (h1 : s.api_instance = some a) (ha : a ≠ "") (hb : isSentinel a = false)
    (hseg : (splitDots code).get? 2 = some "youtube" ∨
      (splitDots code).get? 2 = some "fetch")
    (hsel : get_instance_run probe registry
        { s with skipped_instances := s.skipped_instances ++ [a] }
      = (s3, .committed u)) :
    getRun registry probe url download_mode filename_style audio_format
        youtube_video_codec quality s (.error code :: rest)
      = ((getRun registry probe url download_mode filename_style audio_format
            youtube_video_codec (normalizeQuality quality) s3 rest).1,
         (getRun registry probe url download_mode filename_style audio_format
            youtube_video_codec (normalizeQuality quality) s3 rest).2.1,
         buildBody url (normalizeQuality quality) filename_style audio_format
            youtube_video_codec
           :: (getRun registry probe url download_mode filename_style audio_format
            youtube_video_codec (normalizeQuality quality) s3 rest).2.2)
      ∧ s3.skipped_instances = s.skipped_instances ++ [a] := by
  have hcls : classifyError code = .retry := by
    rcases hseg with hseg | hseg <;> (rw [classifyError_of_seg code _ hseg]; rfl)
  exact getRun_retry_step registry probe url download_mode filename_style
    audio_format youtube_video_codec quality s a code rest s3 u h1 ha hb hcls hsel

/-- Witness for C3: a concrete `error.api.youtube.broken` response against
`https://a.example` rotates to `https://b.example` and resubmits; the
follow-up success is returned to the caller and the two submitted bodies are
identical. -/
theorem youtube_fetch_retry_witness :
    getRun [exInstanceB] exProbeB "https://youtu.be/x" "auto" "pretty" none none
        "1080" exSession
        [.error "error.api.youtube.broken", .success "tunnel" "clip.mp4" "https://t.example/f"]
      = ((getRun [exInstanceB] exProbeB "https://youtu.be/x" "auto" "pretty" none none
            (normalizeQuality "1080") exSessionB
            [.success "tunnel" "clip.mp4" "https://t.example/f"]).1,
         (getRun [exInstanceB] exProbeB "https://youtu.be/x" "auto" "pretty" none none
            (normalizeQuality "1080") exSessionB
            [.success "tunnel" "clip.mp4" "https://t.example/f"]).2.1,
         buildBody "https://youtu.be/x" (normalizeQuality "1080") "pretty" none none
           :: (getRun [exInstanceB] exProbeB "https://youtu.be/x" "auto" "pretty" none none
            (normalizeQuality "1080") exSessionB
            [.success "tunnel" "clip.mp4" "https://t.example/f"]).2.2)
      ∧ exSessionB.skipped_instances = exSession.skipped_instances ++ ["https://a.example"] :=
  youtube_fetch_retry [exInstanceB] exProbeB "https://youtu.be/x" "auto" "pretty"
    none none "1080" exSession "https://a.example" "error.api.youtube.broken"
    [.success "tunnel" "clip.mp4" "https://t.example/f"] exSessionB
    "https://b.example" (by rfl) (by decide) (by rfl) (Or.inl (by rfl)) (by rfl)

/-- Claim C4: a response whose error code has third dot-segment `auth` is
retryable exactly when the code's last dot-segment is `missing` or
`not_found` (skip current instance, reselect, resubmit identically);
any other `auth` subcode raises the terminal `AuthError` with the session
unchanged (no skip, no retry). -/
theorem auth_code_dispatch (registry : List Instance)
    (probe : Instance → ProbeResult)
    (url download_mode filename_style : String)
    (audio_format youtube_video_codec : Option String)
    (quality : String) (s : Session) (a code : String) (rest : List ApiResponse)
    (h1 : s.api_instance = some a) (ha : a ≠ "") (hb : isSentinel a = false)
    (hseg : (splitDots code).get? 2 = some "auth") :
    (((splitDots code).getLastD "" = "missing" ∨
        (splitDots code).getLastD "" = "not_found") →
      ∀ (s3 : Session) (u : String),
        get_instance_run probe registry
            { s with skipped_instances := s.skipped_instances ++ [a] }
          = (s3, .committed u) →
        getRun registry probe url download_mode filename_style audio_format
            youtube_video_codec quality s (.error code :: rest)
          = ((getRun registry probe url download_mode filename_style audio_format
                youtube_video_codec (normalizeQuality quality) s3 rest).1,
             (getRun registry probe url download_mode filename_style audio_format
                youtube_video_codec (normalizeQuality quality) s3 rest).2.1,
             buildBody url (normalizeQuality quality) filename_style audio_format
                youtube_video_codec
               :: (getRun registry probe url download_mode filename_style audio_format
                youtube_video_codec (normalizeQuality quality) s3 rest).2.2)
          ∧ s3.skipped_instances = s.skipped_instances ++ [a]) ∧
    ((splitDots code).getLastD "" ≠ "missing" →
      (splitDots code).getLastD "" ≠ "not_found" →
      getRun registry probe url download_mode filename_style audio_format
          youtube_video_codec quality s (.error code :: rest)
        = (s, .authError code,
           [buildBody url (normalizeQuality quality) filename_style audio_format
              youtube_video_codec])) := by
  constructor
  · intro hlast s3 u hsel
    have hcls : classifyError code = .retry := by
      rw [classifyError_of_seg code _ hseg]
      simp only [if_pos hlast]
      rfl
    exact getRun_retry_step registry probe url download_mode filename_style
      audio_format youtube_video_codec quality s a code rest s3 u h1 ha hb hcls hsel
  · intro hm hn
    have hcls : classifyError code = .raiseAuth := by
      rw [classifyError_of_seg code _ hseg]
      have : ¬((splitDots code).getLastD "" = "missing" ∨
          (splitDots code).getLastD "" = "not_found") := by
        rintro (h | h)
        · exact hm h
        · exact hn h
      simp only [if_neg this]
      rfl
    have hens := ensureInstance_established probe registry s a h1 ha hb
    simp only [getRun, hens, hcls]

/-- Witness for C4: `error.api.auth.key.missing` rotates instances and
resubmits; `error.api.auth.key.invalid` raises `AuthError` with no skip. -/
theorem auth_code_dispatch_witness :
    (getRun [exInstanceB] exProbeB "https://youtu.be/x" "auto" "pretty" none none
        "1080" exSession [.error "error.api.auth.key.missing"]
      = ((getRun [exInstanceB] exProbeB "https://youtu.be/x" "auto" "pretty" none none
            (normalizeQuality "1080") exSessionB []).1,
         (getRun [exInstanceB] exProbeB "https://youtu.be/x" "auto" "pretty" none none
            (normalizeQuality "1080") exSessionB []).2.1,
         buildBody "https://youtu.be/x" (normalizeQuality "1080") "pretty" none none
           :: (getRun [exInstanceB] exProbeB "https://youtu.be/x" "auto" "pretty" none none
            (normalizeQuality "1080") exSessionB []).2.2)
      ∧ exSessionB.skipped_instances = exSession.skipped_instances ++ ["https://a.example"]) ∧
    getRun [exInstanceB] exProbeB "https://youtu.be/x" "auto" "pretty" none none
        "1080" exSession [.error "error.api.auth.key.invalid"]
      = (exSession, .authError "error.api.auth.key.invalid",
         [buildBody "https://youtu.be/x" (normalizeQuality "1080") "pretty" none none]) :=
  ⟨(auth_code_dispatch [exInstanceB] exProbeB "https://youtu.be/x" "auto" "pretty"
      none none "1080" exSession "https://a.example" "error.api.auth.key.missing"
      [] (by rfl) (by decide) (by rfl) (by rfl)).1 (Or.inl (by rfl)) exSessionB
      "https://b.example" (by rfl),
   (auth_code_dispatch [exInstanceB] exProbeB "https://youtu.be/x" "auto" "pretty"
      none none "1080" exSession "https://a.example" "error.api.auth.key.invalid"
      [] (by rfl) (by decide) (by rfl) (by rfl)).2 (by decide) (by decide)⟩

/-- Claim C7: every submitted request body carries the sanitized input URL,
and a successful resolution returns a `File` whose `url` is that same
sanitized URL (so the two fields always agree, across any number of
instance-rotation retries); the sanitized URL is the input with every
single-quote, double-quote and backslash character removed. -/
theorem url_round_trip (registry : List Instance) (probe : Instance → ProbeResult)
    (url download_mode filename_style : String)
    (audio_format youtube_video_codec : Option String) :
    (∀ (script : List ApiResponse) (quality : String) (s : Session),
      (∀ b ∈ (getRun registry probe url download_mode filename_style audio_format
          youtube_video_codec quality s script).2.2, b.url = sanitizeUrl url) ∧
      (∀ f, (getRun registry probe url download_mode filename_style audio_format
          youtube_video_codec quality s script).2.1 = .ok f →
        f.url = sanitizeUrl url)) ∧
    sanitizeUrl url = String.mk (url.toList.filter
      (fun c => c ≠ Char.ofNat 39 && (c ≠ Char.ofNat 34 && c ≠ Char.ofNat 92))) := by
  refine ⟨?_, sanitizeUrl_eq_filter url⟩
  intro script
  induction script with
  | nil =>
    intro quality s
    cases he : ensureInstance probe registry s with
    | ok s1 =>
      refine ⟨?_, ?_⟩
      · intro b hb
        simp only [getRun, he] at hb
        simp at hb
      · intro f hf
        simp only [getRun, he] at hf
        cases hf
    | failed s1 =>
      refine ⟨?_, ?_⟩
      · intro b hb
        simp only [getRun, he] at hb
        simp at hb
      · intro f hf
        simp only [getRun, he] at hf
        cases hf
  | cons resp rest ih =>
    intro quality s
    cases he : ensureInstance probe registry s with
    | failed s1 =>
      refine ⟨?_, ?_⟩
      · intro b hb
        simp only [getRun, he] at hb
        simp at hb
      · intro f hf
        simp only [getRun, he] at hf
        cases hf
    | ok s1 =>
      cases resp with
      | success st fn tn =>
        refine ⟨?_, ?_⟩
        · intro b hb
          simp only [getRun, he] at hb
          simp at hb
          subst hb
          rfl
        · intro f hf
          simp only [getRun, he] at hf
          cases hf
          rfl
      | error code =>
        cases hcls : classifyError code with
        | retry =>
          rcases hgr : get_instance_run probe registry
              { s1 with skipped_instances :=
                  s1.skipped_instances ++ [s1.api_instance.getD ""] }
            with ⟨s3, r⟩
          cases r with
          | indexError =>
            refine ⟨?_, ?_⟩
            · intro b hb
              simp only [getRun, he, hcls, hgr] at hb
              simp at hb
              subst hb
              rfl
            · intro f hf
              simp only [getRun, he, hcls, hgr] at hf
              cases hf
          | committed u =>
            obtain ⟨ihtrace, ihok⟩ := ih (normalizeQuality quality) s3
            refine ⟨?_, ?_⟩
            · intro b hb
              simp only [getRun, he, hcls, hgr] at hb
              rcases List.mem_cons.mp hb with hb | hb
              · subst hb
                rfl
              · exact ihtrace b hb
            · intro f hf
              simp only [getRun, he, hcls, hgr] at hf
              exact ihok f hf
        | raiseLink =>
          refine ⟨?_, ?_⟩
          · intro b hb
            simp only [getRun, he, hcls] at hb
            simp at hb
            subst hb
            rfl
          · intro f hf
            simp only [getRun, he, hcls] at hf
            cases hf
        | raiseContent =>
          refine ⟨?_, ?_⟩
          · intro b hb
            simp only [getRun, he, hcls] at hb
            simp at hb
            subst hb
            rfl
          · intro f hf
            simp only [getRun, he, hcls] at hf
            cases hf
        | raiseInvalidBody =>
          refine ⟨?_, ?_⟩
          · intro b hb
            simp only [getRun, he, hcls] at hb
            simp at hb
            subst hb
            rfl
          · intro f hf
            simp only [getRun, he, hcls] at hf
            cases hf
        | raiseAuth =>
          refine ⟨?_, ?_⟩
          · intro b hb
            simp only [getRun, he, hcls] at hb
            simp at hb
            subst hb
            rfl
          · intro f hf
            simp only [getRun, he, hcls] at hf
            cases hf
        | raiseUnrecognized =>
          refine ⟨?_, ?_⟩
          · intro b hb
            simp only [getRun, he, hcls] at hb
            simp at hb
            subst hb
            rfl
          · intro f hf
            simp only [getRun, he, hcls] at hf
            cases hf
        | indexError =>
          refine ⟨?_, ?_⟩
          · intro b hb
            simp only [getRun, he, hcls] at hb
            simp at hb
            subst hb
            rfl
          · intro f hf
            simp only [getRun, he, hcls] at hf
            cases hf

/-- Witness for C7: a concrete run with a retry and a URL containing quote
and backslash characters. -/
theorem url_round_trip_witness :
    (∀ b ∈ (getRun [exInstanceB] exProbeB "https://y.example/v?t='a\"b\\c'"
        "auto" "pretty" none none "1080" exSession
        [.error "error.api.fetch.failed",
         .success "tunnel" "clip.mp4" "https://t.example/f"]).2.2,
      b.url = sanitizeUrl "https://y.example/v?t='a\"b\\c'") ∧
    (∀ f, (getRun [exInstanceB] exProbeB "https://y.example/v?t='a\"b\\c'"
        "auto" "pretty" none none "1080" exSession
        [.error "error.api.fetch.failed",
         .success "tunnel" "clip.mp4" "https://t.example/f"]).2.1 = .ok f →
      f.url = sanitizeUrl "https://y.example/v?t='a\"b\\c'") :=
  (url_round_trip [exInstanceB] exProbeB "https://y.example/v?t='a\"b\\c'"
    "auto" "pretty" none none).1
    [.error "error.api.fetch.failed",
     .success "tunnel" "clip.mp4" "https://t.example/f"] "1080" exSession

theorem get_instance_run_committed_not_skipped (probe : Instance → ProbeResult)
    (registry : List Instance) (s : Session) (u : String)
    (h : (get_instance_run probe registry s).2 = .committed u) :
    s.skipped_instances.contains u = false := by
  simp only [get_instance_run] at h
  cases hsl : selectLoop probe s.skipped_instances
      (sortByScore (goodInstancesOf registry)) with
  | committed v =>
    rw [hsl] at h
    simp at h
    subst h
    exact selectLoop_committed_not_skipped probe _ _ v hsl
  | indexError =>
    rw [hsl] at h
    simp at h

theorem getRun_skipped_extends (registry : List Instance)
    (probe : Instance → ProbeResult)
    (url download_mode filename_style : String)
    (audio_format youtube_video_codec : Option String) :
    ∀ (script : List ApiResponse) (quality : String) (s : Session),
      ∃ l, (getRun registry probe url download_mode filename_style audio_format
          youtube_video_codec quality s script).1.skipped_instances
        = s.skipped_instances ++ l := by
  intro script
  induction script with
  | nil =>
    intro quality s
    cases he : ensureInstance probe registry s with
    | ok s1 =>
      refine ⟨[], ?_⟩
      simp only [getRun, he]
      simp [ensureInstance_ok_skipped probe registry s s1 he]
    | failed s1 =>
      refine ⟨[], ?_⟩
      simp only [getRun, he]
      simp [ensureInstance_failed_skipped probe registry s s1 he]
  | cons resp rest ih =>
    intro quality s
    cases he : ensureInstance probe registry s with
    | failed s1 =>
      refine ⟨[], ?_⟩
      simp only [getRun, he]
      simp [ensureInstance_failed_skipped probe registry s s1 he]
    | ok s1 =>
      have hs1 : s1.skipped_instances = s.skipped_instances :=
        ensureInstance_ok_skipped probe registry s s1 he
      cases resp with
      | success st fn tn =>
        refine ⟨[], ?_⟩
        simp only [getRun, he]
        simp [hs1]
      | error code =>
        cases hcls : classifyError code with
        | retry =>
          rcases hgr : get_instance_run probe registry
              { s1 with skipped_instances :=
                  s1.skipped_instances ++ [s1.api_instance.getD ""] }
            with ⟨s3, r⟩
          have hs3 : s3.skipped_instances
              = s1.skipped_instances ++ [s1.api_instance.getD ""] := by
            have := get_instance_run_skipped probe registry
              { s1 with skipped_instances :=
                  s1.skipped_instances ++ [s1.api_instance.getD ""] }
            rw [hgr] at this
            exact this
          cases r with
          | indexError =>
            refine ⟨[s1.api_instance.getD ""], ?_⟩
            simp only [getRun, he, hcls, hgr]
            simp [hs3, hs1]
          | committed u =>
            obtain ⟨l, hl⟩ := ih (normalizeQuality quality) s3
            refine ⟨[s1.api_instance.getD ""] ++ l, ?_⟩
            simp only [getRun, he, hcls, hgr]
            simp [hl, hs3, hs1]
        | raiseLink =>
          refine ⟨[], ?_⟩
          simp only [getRun, he, hcls]
          simp [hs1]
        | raiseContent =>
          refine ⟨[], ?_⟩
          simp only [getRun, he, hcls]
          simp [hs1]
        | raiseInvalidBody =>
          refine ⟨[], ?_⟩
          simp only [getRun, he, hcls]
          simp [hs1]
        | raiseAuth =>
          refine ⟨[], ?_⟩
          simp only [getRun, he, hcls]
          simp [hs1]
        | raiseUnrecognized =>
          refine ⟨[], ?_⟩
          simp only [getRun, he, hcls]
          simp [hs1]
        | indexError =>
          refine ⟨[], ?_⟩
          simp only [getRun, he, hcls]
          simp [hs1]

/-- Claim C2: the selector never commits an instance whose probe-reported
canonical URL is in `skipped_instances`; `get_instance` leaves the skip set
unchanged and `get` only ever appends to it (monotone growth); hence an URL
present in the skip set is never committed again, whatever candidate list
the registry serves and however it is re-ranked. -/
theorem skip_set_invariant :
    (∀ (probe : Instance → ProbeResult) (registry : List Instance)
        (s : Session) (u : String),
      (get_instance_run probe registry s).2 = .committed u →
        s.skipped_instances.contains u = false) ∧
    (∀ (probe : Instance → ProbeResult) (registry : List Instance) (s : Session),
      (get_instance_run probe registry s).1.skipped_instances
        = s.skipped_instances) ∧
    (∀ (registry : List Instance) (probe : Instance → ProbeResult)
        (url download_mode filename_style : String)
        (audio_format youtube_video_codec : Option String)
        (script : List ApiResponse) (quality : String) (s : Session),
      ∃ l, (getRun registry probe url download_mode filename_style audio_format
          youtube_video_codec quality s script).1.skipped_instances
        = s.skipped_instances ++ l) ∧
    (∀ (probe : Instance → ProbeResult) (registry : List Instance)
        (s : Session) (u : String),
      s.skipped_instances.contains u = true →
        (get_instance_run probe registry s).2 ≠ .committed u) := by
  refine ⟨get_instance_run_committed_not_skipped, get_instance_run_skipped,
    ?_, ?_⟩
  · intro registry probe url download_mode filename_style audio_format
      youtube_video_codec script quality s
    exact getRun_skipped_extends registry probe url download_mode filename_style
      audio_format youtube_video_codec script quality s
  · intro probe registry s u hmem hcom
    have := get_instance_run_committed_not_skipped probe registry s u hcom
    rw [hmem] at this
    cases this

/-- Witness for C2: with `https://b.example` already skipped, a registry that
re-serves it at the top of the ranking does not get it committed; the call
ends in the untyped `IndexError` instead, and the skip set is preserved. -/
theorem skip_set_invariant_witness :
    ({ exSession with skipped_instances := ["https://b.example"] }
        : Session).skipped_instances.contains "https://b.example" = true ∧
    (get_instance_run exProbeB [exInstanceB]
        { exSession with skipped_instances := ["https://b.example"] }).2
      ≠ .committed "https://b.example" ∧
    (get_instance_run exProbeB [exInstanceB]
        { exSession with skipped_instances := ["https://b.example"] }).1.skipped_instances
      = ["https://b.example"] :=
  ⟨by decide,
   skip_set_invariant.2.2.2 exProbeB [exInstanceB]
     { exSession with skipped_instances := ["https://b.example"] }
     "https://b.example" (by decide),
   skip_set_invariant.2.1 exProbeB [exInstanceB]
     { exSession with skipped_instances := ["https://b.example"] }⟩

theorem get_instance_run_committed_api (probe : Instance → ProbeResult)
    (registry : List Instance) (s : Session) (u : String)
    (h : (get_instance_run probe registry s).2 = .committed u) :
    (get_instance_run probe registry s).1.api_instance = some u := by
  simp only [get_instance_run] at h ⊢
  cases hsl : selectLoop probe s.skipped_instances
      (sortByScore (goodInstancesOf registry)) with
  | committed v =>
    rw [hsl] at h
    simp at h
    subst h
    rfl
  | indexError =>
    rw [hsl] at h
    simp at h

/-- Claim C9: every call to `get_instance` overwrites the shared headers'
User-Agent with the fixed pybalt/GitHub identification string (the local
`headers` variable aliases `self.headers`), so every later read of the
session's headers sees that string; no other header entry, nor
`skipped_instances`, nor `api_key` is modified, and on success the only
other change is `api_instance` becoming the committed canonical URL. -/
theorem get_instance_frame (probe : Instance → ProbeResult)
    (registry : List Instance) (s : Session) :
    dictGet (get_instance_run probe registry s).1.headers "User-Agent"
      = some pybaltUserAgent ∧
    (∀ k : String, k ≠ "User-Agent" →
      dictGet (get_instance_run probe registry s).1.headers k
        = dictGet s.headers k) ∧
    (get_instance_run probe registry s).1.skipped_instances
      = s.skipped_instances ∧
    (get_instance_run probe registry s).1.api_key = s.api_key ∧
    (∀ u, (get_instance_run probe registry s).2 = .committed u →
      (get_instance_run probe registry s).1.api_instance = some u) := by
  refine ⟨?_, ?_, get_instance_run_skipped probe registry s,
    get_instance_run_api_key probe registry s,
    fun u h => get_instance_run_committed_api probe registry s u h⟩
  · rw [get_instance_run_headers]
    exact dictGet_dictSet_same _ _ _
  · intro k hk
    rw [get_instance_run_headers]
    exact dictGet_dictSet_other _ _ _ hk _

/-- Witness for C9: after a concrete selection, the User-Agent reads the
fixed string while the Accept header and the rest of the session survive. -/
theorem get_instance_frame_witness :
    dictGet (get_instance_run exProbeB [exInstanceB] exSession).1.headers
        "User-Agent" = some pybaltUserAgent ∧
    dictGet (get_instance_run exProbeB [exInstanceB] exSession).1.headers
        "Accept" = dictGet exSession.headers "Accept" ∧
    (get_instance_run exProbeB [exInstanceB] exSession).1.api_instance
      = some "https://b.example" :=
  ⟨(get_instance_frame exProbeB [exInstanceB] exSession).1,
   (get_instance_frame exProbeB [exInstanceB] exSession).2.1 "Accept" (by decide),
   (get_instance_frame exProbeB [exInstanceB] exSession).2.2.2.2
     "https://b.example" (by rfl)⟩

/-- Amended claim C1: when every candidate is discarded (probe failure or a
canonical URL already in the skip set), the selection loop of `get_instance`
terminates, but what escapes is the untyped `IndexError` from
`good_instances.pop(0)` on the empty list, not a typed `NoAvailableInstance`
(no such exception exists in the code); in the one-good-instance scenario
whose extraction request fails with `error.api.fetch.failed`, the skip set
gains that instance and the `IndexError` reaches the caller. -/
theorem exhaustion_is_index_error (probe : Instance → ProbeResult)
    (skipped : List String) (cands : List Instance)
    (h : ∀ i ∈ cands, probe i = .fail ∨
      ∃ u, probe i = .ok u ∧ skipped.contains u = true) :
    selectLoop probe skipped cands = .indexError ∧
    (getRun [exInstanceA] exProbeA "https://youtu.be/x" "auto" "pretty"
        none none "1080" exSession
        [.error "error.api.fetch.failed"]).1.skipped_instances
      = ["https://a.example"] ∧
    (getRun [exInstanceA] exProbeA "https://youtu.be/x" "auto" "pretty"
        none none "1080" exSession [.error "error.api.fetch.failed"]).2.1
      = .instanceIndexError :=
  ⟨selectLoop_exhausted probe skipped cands h, by rfl, by rfl⟩

/-- Witness for C1 (amended): exhaustion at a concrete candidate list whose
single instance is skipped. -/
theorem exhaustion_is_index_error_witness :
    selectLoop exProbeA ["https://a.example"] [exInstanceA] = .indexError ∧
    (getRun [exInstanceA] exProbeA "https://youtu.be/x" "auto" "pretty"
        none none "1080" exSession
        [.error "error.api.fetch.failed"]).1.skipped_instances
      = ["https://a.example"] ∧
    (getRun [exInstanceA] exProbeA "https://youtu.be/x" "auto" "pretty"
        none none "1080" exSession [.error "error.api.fetch.failed"]).2.1
      = .instanceIndexError :=
  exhaustion_is_index_error exProbeA ["https://a.example"] [exInstanceA]
    (fun i _ => Or.inr ⟨"https://a.example", rfl, by decide⟩)

/-- Counterexample to claim C1 as stated: in the one-instance scenario the
resolution does not fail with a typed error at all — the outcome is the
untyped `IndexError` propagated out of `get_instance` (and the skip set did
gain the instance). -/
theorem no_available_instance_counterexample :
    (getRun [exInstanceA] exProbeA "https://youtu.be/x" "auto" "pretty"
        none none "1080" exSession [.error "error.api.fetch.failed"]).2.1
      = .instanceIndexError ∧
    isTypedError (getRun [exInstanceA] exProbeA "https://youtu.be/x" "auto"
        "pretty" none none "1080" exSession
        [.error "error.api.fetch.failed"]).2.1 = false ∧
    (getRun [exInstanceA] exProbeA "https://youtu.be/x" "auto" "pretty"
        none none "1080" exSession
        [.error "error.api.fetch.failed"]).1.skipped_instances
      = ["https://a.example"] :=
  ⟨by rfl, by rfl, by rfl⟩

end Pybalt
